import Mathlib

/-
Verification development for the casadata update coordination core
(src/casaconfig/private/measures_update.py and measures_available.py).

The Python code is embedded shallowly: every external observation the code
makes (filesystem checks, remote FTP listings, download/extraction success)
is a field of an environment record, and measures_update is translated
branch by branch into a pure function from arguments and environment to an
outcome consisting of the returned result (normal return or raised
exception), the ordered list of filesystem mutations performed at path, and
the final state of the data_update.lock sentinel.

get_data_info and get_data_lock are imported by measures_update but their
source is not part of this repository snapshot; they are modelled from the
spec where indicated below.
-/

namespace Casadata

/- ## String utilities

These reimplement, over List Char, exactly the string operations the
Python source uses: len(s) > 0, s.endswith(suf), the regex searches
re.search with the plain-text patterns geodetic and Observatories
(substring search) and with the pattern .old where the dot matches any
character except a newline, and Python sorted() on strings (stable,
ascending, by code point). -/

/-- Substring search: does pat occur contiguously inside l (re.search with a
plain-text pattern). -/
def hasSublist (pat : List Char) : List Char → Bool
  | [] => pat.isEmpty
  | c :: rest => List.isPrefixOf pat (c :: rest) || hasSublist pat rest

def strHasSubstr (pat s : String) : Bool := hasSublist pat.data s.data

/-- Matches re.search with the pattern .old : some character other than a
newline, immediately followed by the three characters old, anywhere in the
name. -/
def hasDotOld : List Char → Bool
  | [] => false
  | c :: rest =>
      (decide (c ≠ '\n') && List.isPrefixOf [ 'o', 'l', 'd' ] rest) || hasDotOld rest

def strNonEmpty (s : String) : Bool := !s.data.isEmpty

def strEndsWith (s suf : String) : Bool := List.isSuffixOf suf.data s.data

/-- Lexicographic order on strings by code point, as Python compares str. -/
def charListLe : List Char → List Char → Bool
  | [], _ => true
  | _ :: _, [] => false
  | a :: as, b :: bs =>
      if a < b then true else if b < a then false else charListLe as bs

def insertSorted (s : String) : List String → List String
  | [] => [s]
  | t :: ts => if charListLe s.data t.data then s :: t :: ts else t :: insertSorted s ts

/-- Stable ascending sort, as Python sorted() on a list of strings. -/
def sortStrings : List String → List String
  | [] => []
  | s :: ss => insertSorted s (sortStrings ss)

/- ## Data model -/

/-- Modelled from the spec: result of get_data_info for the measures type,
whose source is not in this repository snapshot. The State Reader returns
None when the directory does not exist or holds no data; a record whose
version field is the string invalid when there is content but no marker and
the content does not resemble measures data; unknown when the content
resembles measures data not produced by this system (no marker); error when
the marker exists but cannot be parsed; and the real version together with
the marker age (in days, here a rational) only when the marker parses
cleanly. -/
inductive ReadmeState where
  | noInfo
  | invalid
  | errorReading
  | unknown
  | valid (version : String) (age : ℚ)
deriving DecidableEq

/-- Value of the current variable in measures_update: the version field of
the readme info dictionary, None when get_data_info returned None. -/
def currentOf : ReadmeState → Option String
  | ReadmeState.noInfo => none
  | ReadmeState.invalid => some (r"invalid")
  | ReadmeState.errorReading => some (r"error")
  | ReadmeState.unknown => some (r"unknown")
  | ReadmeState.valid v _ => some v

/-- Value of the ageRecent variable: age is populated only for a cleanly
parsed marker and is compared against 1.0 days. -/
def ageRecentOf : ReadmeState → Bool
  | ReadmeState.valid _ a => decide (a < 1)
  | _ => false

/-- Outcome of one call of measures_available, determined by the state of
the remote server: name-resolution failure (socket.gaierror), any other
failure inside the try block, or a successful directory listing. -/
inductive RemoteAccess where
  | gaierror
  | otherFailure
  | listing (files : List String)
deriving DecidableEq

inductive AvailErr where
  | remote
  | unexpected
deriving DecidableEq

/-- Filter applied by measures_available to the raw nlst() listing: keep
names that are non-empty and do not end in .dat (source
measures_available.py line 56). -/
def availFilter (fs : List String) : List String :=
  fs.filter (fun ff => strNonEmpty ff && !(strEndsWith ff (r".dat")))

/-- Embedding of measures_available (measures_available.py lines 44-63): a
socket.gaierror raises RemoteError, any other failure raises a generic
Exception, and a successful listing is returned filtered, in server order
(the source does not sort it). -/
def measures_available (rem : RemoteAccess) : Except AvailErr (List String) :=
  match rem with
  | RemoteAccess.gaierror => Except.error AvailErr.remote
  | RemoteAccess.otherFailure => Except.error AvailErr.unexpected
  | RemoteAccess.listing fs => Except.ok (availFilter fs)

/-- Exceptions measures_update can raise, as its docstring lists them. -/
inductive UpErr where
  | unsetMeasurespath
  | autoUpdatesNotAllowed
  | noReadme
  | badReadme
  | badLock
  | notWritable
  | remoteError
  | unexpected
deriving DecidableEq

/-- A run either returns None normally or raises an exception. -/
inductive UpResult where
  | ok
  | err (e : UpErr)
deriving DecidableEq

/-- Filesystem mutations measures_update can perform at path, in program
order: creating the directory tree, touching geodetic/readme.txt with
os.utime, removing or writing measures.ztar, removing geodetic/readme.txt,
extracting one archive member, and writing the new geodetic/readme.txt with
a version and a date. -/
inductive FsOp where
  | makedirs
  | utimeReadme
  | removeZtar
  | writeZtar (target : String)
  | removeReadme
  | extract (name : String)
  | writeReadme (version : String) (date : String)
deriving DecidableEq

/-- Arguments of measures_update that influence control flow. path is
abstracted into the environment; logger and verbose only affect printing. -/
structure Args where
  version : Option String
  force : Bool
  auto_update_rules : Bool
  use_astron_obs_table : Bool
deriving DecidableEq

/-- Environment: every observation the code makes of the filesystem, the
remote server, and of injected failures during download and extraction.
preReadme is what get_data_info reports before the lock is taken, and
postReadme what it reports when re-read after the lock (a concurrent writer
may have changed the directory in between). extractFailsAfter is none when
extraction completes, and some k when extractall raises after k members. -/
structure Env where
  pathExists : Bool
  pathIsDir : Bool
  pathOwned : Bool
  preReadme : ReadmeState
  remote : RemoteAccess
  obsDirExists : Bool
  writableExec : Bool
  lockNonEmpty : Bool
  postReadme : ReadmeState
  ftpConnectOk : Bool
  ftpEntries : List (String × Nat)
  ztarPreExists : Bool
  downloadOk : Bool
  readmePreExists : Bool
  tarMembers : List String
  extractFailsAfter : Option Nat
  today : String
deriving DecidableEq

/-- Outcome of one run: the result, the ordered trace of filesystem
mutations under path, whether the lock was ever acquired (holder info
written into the sentinel), and whether the finally block truncated the
sentinel (clean_lock). When lockAcquired is true and cleanLock is false the
sentinel is left non-empty: a dirty lock. -/
structure RunOutcome where
  result : UpResult
  trace : List FsOp
  lockAcquired : Bool
  cleanLock : Bool
deriving DecidableEq

/- ## The update orchestrator, phase by phase -/

/-- Resolution of checkVersion (measures_update.py lines 207-217): an
explicit version argument is used as is; otherwise the last element of the
measures_available listing; a RemoteError is re-raised (the error case
here); any other failure, including the IndexError of indexing an empty
list, is swallowed by the bare except, leaving checkVersion at None. -/
def resolveCheckVersion (a : Args) (env : Env) : Except Unit (Option String) :=
  match a.version with
  | some v => Except.ok (some v)
  | none =>
      match measures_available env.remote with
      | Except.ok fs => Except.ok fs.getLast?
      | Except.error AvailErr.remote => Except.error ()
      | Except.error AvailErr.unexpected => Except.ok none

/-- Install-phase FTP listing (measures_update.py line 296): names that are
non-empty, do not end in .dat and have positive size, sorted ascending. -/
def installFiles (env : Env) : List String :=
  sortStrings
    (((env.ftpEntries.filter
        (fun e => strNonEmpty e.1 && !(strEndsWith e.1 (r".dat")) && decide (0 < e.2))).map
      Prod.fst))

/-- Target of the download (line 301): files[-1] when no version was
requested, none when that listing is empty (an IndexError, caught by the
generic handler). -/
def targetOf (a : Args) (env : Env) : Option String :=
  match a.version with
  | some v => some v
  | none => (installFiles env).getLast?

/-- Member filter for extraction (lines 326-334): when force and
use_astron_obs_table are both true, exclude only members matching both
regexes geodetic and .old; otherwise additionally exclude any member
matching Observatories. -/
def keepMember (force useAstron : Bool) (name : String) : Bool :=
  if force && useAstron then
    !(strHasSubstr (r"geodetic") name && hasDotOld name.data)
  else
    !((strHasSubstr (r"geodetic") name && hasDotOld name.data)
        || strHasSubstr (r"Observatories") name)

/-- Embedding of the do_update body (lines 286-349), entered with the lock
held. clean_lock is set False at line 292 before the FTP connection and set
back to True at line 349 only after the new readme has been written; every
exception escapes through the generic handler (result err unexpected) with
the lock left dirty. Trace order follows the source: remove any stale
measures.ztar, create and fill measures.ztar, remove any existing
geodetic/readme.txt only after the download finished, extract the filtered
members, remove measures.ztar, write the new readme. -/
def installPhase (a : Args) (env : Env) (tr : List FsOp) : RunOutcome :=
  if env.ftpConnectOk = false then ⟨UpResult.err UpErr.unexpected, tr, true, false⟩
  else
    match targetOf a env with
    | none => ⟨UpResult.err UpErr.unexpected, tr, true, false⟩
    | some target =>
        if target ∉ installFiles env then
          ⟨UpResult.ok, tr, true, false⟩
        else
          let tr1 := tr ++ (if env.ztarPreExists then [FsOp.removeZtar] else [])
              ++ [FsOp.writeZtar target]
          if env.downloadOk = false then ⟨UpResult.err UpErr.unexpected, tr1, true, false⟩
          else
            let tr2 := tr1 ++ (if env.readmePreExists then [FsOp.removeReadme] else [])
            let xs := env.tarMembers.filter (keepMember a.force a.use_astron_obs_table)
            match env.extractFailsAfter with
            | some k =>
                ⟨UpResult.err UpErr.unexpected, tr2 ++ (xs.take k).map FsOp.extract,
                  true, false⟩
            | none =>
                ⟨UpResult.ok,
                  tr2 ++ xs.map FsOp.extract
                    ++ [FsOp.removeZtar, FsOp.writeReadme target env.today],
                  true, true⟩

/-- Embedding of the locked section (lines 249-284 with the handlers at
355-386). Modelled from the spec where get_data_lock is concerned (its
source is not in this snapshot): acquire raises BadLock without writing
anything when the sentinel file is non-empty, and otherwise acquires the
OS lock and writes holder info into the sentinel. On BadLock the handler
re-raises and the finally block does nothing since lock_fd is None. The
post-lock re-check follows the source exactly: note that line 276 compares
the version argument, not the re-read classification, against the strings
invalid and unknown. -/
def lockedPhase (a : Args) (env : Env) (tr : List FsOp) : RunOutcome :=
  if env.lockNonEmpty = true then ⟨UpResult.err UpErr.badLock, tr, false, true⟩
  else if a.force = true then installPhase a env tr
  else if a.version ≠ none ∧ a.version = currentOf env.postReadme then
    ⟨UpResult.ok, tr, true, true⟩
  else if a.version = none ∧ ageRecentOf env.postReadme = true then
    ⟨UpResult.ok, tr, true, true⟩
  else if env.postReadme ≠ ReadmeState.noInfo
      ∧ (a.version = some (r"invalid") ∨ a.version = some (r"unknown")) then
    ⟨UpResult.err UpErr.badReadme, tr, true, false⟩
  else installPhase a env tr

/-- Writability check (lines 240-242) followed by the locked section; this
point is reached by both the force and the non-force paths. -/
def afterPreLock (a : Args) (env : Env) (tr : List FsOp) : RunOutcome :=
  if env.writableExec = false then ⟨UpResult.err UpErr.notWritable, tr, false, true⟩
  else lockedPhase a env tr

/-- Embedding of the pre-lock decision block (lines 188-238), entered only
when force is False: the one-day age shortcut, the refusals on the invalid,
error and unknown classifications, the checkVersion resolution, the
already-installed shortcut that touches the readme, and the guard requiring
the geodetic/Observatories directory. -/
def preLockChecks (a : Args) (env : Env) (tr : List FsOp) : RunOutcome :=
  if a.version = none ∧ ageRecentOf env.preReadme = true then
    ⟨UpResult.ok, tr, false, true⟩
  else if currentOf env.preReadme = some (r"invalid") then
    ⟨UpResult.err UpErr.noReadme, tr, false, true⟩
  else if currentOf env.preReadme = some (r"error") then
    ⟨UpResult.err UpErr.badReadme, tr, false, true⟩
  else if currentOf env.preReadme = some (r"unknown") then
    ⟨UpResult.ok, tr, false, true⟩
  else
    match resolveCheckVersion a env with
    | Except.error _ => ⟨UpResult.err UpErr.remoteError, tr, false, true⟩
    | Except.ok checkVersion =>
        if checkVersion ≠ none ∧ checkVersion = currentOf env.preReadme then
          ⟨UpResult.ok, tr ++ [FsOp.utimeReadme], false, true⟩
        else if env.obsDirExists = false then ⟨UpResult.ok, tr, false, true⟩
        else afterPreLock a env tr

/-- Embedding of measures_update (measures_update.py lines 148-388). The
auto_update_rules gate comes first: a non-None version or a True force
prints a message and returns; a path that is not a directory owned by the
user raises AutoUpdatesNotAllowed. Then the directory is created when
missing, the pre-lock checks run unless force is True, and control reaches
the writability check and the locked section. -/
def measures_update (a : Args) (env : Env) : RunOutcome :=
  if a.auto_update_rules = true ∧ a.version ≠ none then ⟨UpResult.ok, [], false, true⟩
  else if a.auto_update_rules = true ∧ a.force = true then ⟨UpResult.ok, [], false, true⟩
  else if a.auto_update_rules = true ∧ (env.pathIsDir = false ∨ env.pathOwned = false) then
    ⟨UpResult.err UpErr.autoUpdatesNotAllowed, [], false, true⟩
  else
    let tr0 : List FsOp := if env.pathExists then [] else [FsOp.makedirs]
    if a.force = true then afterPreLock a env tr0 else preLockChecks a env tr0

/- ## Marker-presence bookkeeping -/

/-- Effect of one filesystem operation on whether geodetic/readme.txt is
present. -/
def markerStep (b : Bool) : FsOp → Bool
  | FsOp.removeReadme => false
  | FsOp.writeReadme _ _ => true
  | _ => b

/-- Whether the marker file is present after replaying a trace on an
initial presence state. -/
def markerAfter (init : Bool) (tr : List FsOp) : Bool := tr.foldl markerStep init

/- ## Claim C1: the post-lock re-check (code behavior at the failing input) -/

def c1Args : Args := ⟨none, false, false, false⟩

def c1Env : Env :=
  { pathExists := true, pathIsDir := true, pathOwned := true,
    preReadme := ReadmeState.valid (r"WSRT_Measures_20260101-160001.ztar") 2,
    remote := RemoteAccess.listing [r"WSRT_Measures_20260110-160001.ztar"],
    obsDirExists := true, writableExec := true, lockNonEmpty := false,
    postReadme := ReadmeState.invalid,
    ftpConnectOk := true, ftpEntries := [(r"WSRT_Measures_20260110-160001.ztar", 1)],
    ztarPreExists := false, downloadOk := true, readmePreExists := false,
    tarMembers := [r"ephemerides/DE200/table.info"],
    extractFailsAfter := none, today := r"2026-10-12" }

/- ## Claim C3 counterexample -/

def c3Args : Args := ⟨none, false, false, false⟩

def c3Env : Env :=
  { pathExists := true, pathIsDir := true, pathOwned := true,
    preReadme := ReadmeState.valid (r"WSRT_Measures_20260111-160001.ztar") (mkRat 1 2),
    remote := RemoteAccess.listing [r"WSRT_Measures_20260111-160001.ztar"],
    obsDirExists := true, writableExec := true, lockNonEmpty := false,
    postReadme := ReadmeState.valid (r"WSRT_Measures_20260111-160001.ztar") (mkRat 1 2),
    ftpConnectOk := true, ftpEntries := [(r"WSRT_Measures_20260111-160001.ztar", 1)],
    ztarPreExists := false, downloadOk := true, readmePreExists := true,
    tarMembers := [], extractFailsAfter := none, today := r"2026-10-12" }

/- ## Claim C4 counterexample -/

def c4Args : Args := ⟨none, false, false, false⟩

def c4Env : Env :=
  { pathExists := true, pathIsDir := true, pathOwned := true,
    preReadme := ReadmeState.valid (r"WSRT_Measures_20260105-160001.ztar") (mkRat 1 4),
    remote := RemoteAccess.listing [r"WSRT_Measures_20260112-160001.ztar"],
    obsDirExists := true, writableExec := true, lockNonEmpty := false,
    postReadme := ReadmeState.valid (r"WSRT_Measures_20260105-160001.ztar") (mkRat 1 4),
    ftpConnectOk := true, ftpEntries := [(r"WSRT_Measures_20260112-160001.ztar", 1)],
    ztarPreExists := false, downloadOk := true, readmePreExists := true,
    tarMembers := [], extractFailsAfter := none, today := r"2026-10-12" }

/- ## Claim C6 counterexample -/

def c6Args : Args := ⟨some (r"WSRT_Measures_20260101-160001.ztar"), false, true, false⟩

def c6Env : Env :=
  { pathExists := false, pathIsDir := false, pathOwned := false,
    preReadme := ReadmeState.noInfo,
    remote := RemoteAccess.listing [],
    obsDirExists := false, writableExec := false, lockNonEmpty := false,
    postReadme := ReadmeState.noInfo,
    ftpConnectOk := false, ftpEntries := [],
    ztarPreExists := false, downloadOk := false, readmePreExists := false,
    tarMembers := [], extractFailsAfter := none, today := r"2026-10-12" }

/- ## Claim C7 counterexample -/

def c7List : List String :=
  [r"WSRT_Measures_20260110-160001.ztar", r"WSRT_Measures_20260101-160001.ztar"]

/- ## Claim C9 counterexample -/

def c9Args : Args := ⟨some (r"WSRT_Measures_20260120-160001.ztar"), false, false, true⟩

def c9Env : Env :=
  { pathExists := true, pathIsDir := true, pathOwned := true,
    preReadme := ReadmeState.valid (r"WSRT_Measures_20260101-160001.ztar") 3,
    remote := RemoteAccess.listing [r"WSRT_Measures_20260120-160001.ztar"],
    obsDirExists := true, writableExec := true, lockNonEmpty := false,
    postReadme := ReadmeState.valid (r"WSRT_Measures_20260101-160001.ztar") 3,
    ftpConnectOk := true, ftpEntries := [(r"WSRT_Measures_20260120-160001.ztar", 7)],
    ztarPreExists := false, downloadOk := true, readmePreExists := true,
    tarMembers := [r"geodetic/Observatories/table.f0", r"ephemerides/DE405/table.info"],
    extractFailsAfter := none, today := r"2026-10-12" }

def c2wArgs : Args := ⟨none, false, false, false⟩

def c2wEnv : Env :=
  { pathExists := true, pathIsDir := true, pathOwned := true,
    preReadme := ReadmeState.valid (r"WSRT_Measures_20260102-160001.ztar") 2,
    remote := RemoteAccess.listing [r"WSRT_Measures_20260112-160001.ztar"],
    obsDirExists := true, writableExec := true, lockNonEmpty := false,
    postReadme := ReadmeState.valid (r"WSRT_Measures_20260102-160001.ztar") 2,
    ftpConnectOk := true, ftpEntries := [(r"WSRT_Measures_20260112-160001.ztar", 9)],
    ztarPreExists := false, downloadOk := true, readmePreExists := true,
    tarMembers := [r"geodetic/IERSeop97/table.f0"],
    extractFailsAfter := some 0, today := r"2026-10-12" }

def c5wArgs : Args := ⟨none, false, false, false⟩

def c5wEnv : Env :=
  { pathExists := true, pathIsDir := true, pathOwned := true,
    preReadme := ReadmeState.valid (r"WSRT_Measures_20260103-160001.ztar") 5,
    remote := RemoteAccess.listing [r"WSRT_Measures_20260113-160001.ztar"],
    obsDirExists := true, writableExec := true, lockNonEmpty := true,
    postReadme := ReadmeState.valid (r"WSRT_Measures_20260103-160001.ztar") 5,
    ftpConnectOk := true, ftpEntries := [],
    ztarPreExists := false, downloadOk := true, readmePreExists := true,
    tarMembers := [], extractFailsAfter := none, today := r"2026-10-12" }

def c8wArgs : Args := ⟨none, false, false, false⟩

def c8wEnv : Env :=
  { pathExists := true, pathIsDir := true, pathOwned := true,
    preReadme := ReadmeState.invalid,
    remote := RemoteAccess.listing [r"WSRT_Measures_20260114-160001.ztar"],
    obsDirExists := true, writableExec := true, lockNonEmpty := false,
    postReadme := ReadmeState.invalid,
    ftpConnectOk := true, ftpEntries := [],
    ztarPreExists := false, downloadOk := true, readmePreExists := false,
    tarMembers := [], extractFailsAfter := none, today := r"2026-10-12" }

def c3wArgs : Args := ⟨some (r"WSRT_Measures_20260104-160001.ztar"), false, false, false⟩

def c3wEnv : Env :=
  { pathExists := true, pathIsDir := true, pathOwned := true,
    preReadme := ReadmeState.valid (r"WSRT_Measures_20260104-160001.ztar") 7,
    remote := RemoteAccess.listing [r"WSRT_Measures_20260104-160001.ztar"],
    obsDirExists := true, writableExec := true, lockNonEmpty := false,
    postReadme := ReadmeState.valid (r"WSRT_Measures_20260104-160001.ztar") 7,
    ftpConnectOk := true, ftpEntries := [],
    ztarPreExists := false, downloadOk := true, readmePreExists := true,
    tarMembers := [], extractFailsAfter := none, today := r"2026-10-12" }

def c4wArgs : Args := ⟨none, false, false, false⟩

def c4wEnv : Env :=
  { pathExists := true, pathIsDir := true, pathOwned := true,
    preReadme := ReadmeState.valid (r"WSRT_Measures_20260106-160001.ztar") (mkRat 1 3),
    remote := RemoteAccess.listing [r"WSRT_Measures_20260115-160001.ztar"],
    obsDirExists := true, writableExec := true, lockNonEmpty := false,
    postReadme := ReadmeState.valid (r"WSRT_Measures_20260106-160001.ztar") (mkRat 1 3),
    ftpConnectOk := true, ftpEntries := [],
    ztarPreExists := false, downloadOk := true, readmePreExists := true,
    tarMembers := [], extractFailsAfter := none, today := r"2026-10-12" }

def c6wArgs : Args := ⟨none, false, true, false⟩

def c6wEnv : Env :=
  { pathExists := false, pathIsDir := false, pathOwned := true,
    preReadme := ReadmeState.noInfo,
    remote := RemoteAccess.listing [],
    obsDirExists := false, writableExec := false, lockNonEmpty := false,
    postReadme := ReadmeState.noInfo,
    ftpConnectOk := false, ftpEntries := [],
    ztarPreExists := false, downloadOk := false, readmePreExists := false,
    tarMembers := [], extractFailsAfter := none, today := r"2026-10-12" }

def c7wArgs : Args := ⟨none, false, false, false⟩

def c7wList : List String :=
  [r"WSRT_Measures_20260107-160001.ztar", r"WSRT_Measures_20260116-160001.ztar"]

def c7wEnv : Env :=
  { pathExists := true, pathIsDir := true, pathOwned := true,
    preReadme := ReadmeState.valid (r"WSRT_Measures_20260107-160001.ztar") 4,
    remote := RemoteAccess.listing c7wList,
    obsDirExists := true, writableExec := true, lockNonEmpty := false,
    postReadme := ReadmeState.valid (r"WSRT_Measures_20260107-160001.ztar") 4,
    ftpConnectOk := true, ftpEntries := [],
    ztarPreExists := false, downloadOk := true, readmePreExists := true,
    tarMembers := [], extractFailsAfter := none, today := r"2026-10-12" }

def c9wArgs : Args := ⟨some (r"WSRT_Measures_20260117-160001.ztar"), false, false, false⟩

def c9wEnv : Env :=
  { pathExists := true, pathIsDir := true, pathOwned := true,
    preReadme := ReadmeState.valid (r"WSRT_Measures_20260108-160001.ztar") 6,
    remote := RemoteAccess.listing [r"WSRT_Measures_20260117-160001.ztar"],
    obsDirExists := true, writableExec := true, lockNonEmpty := false,
    postReadme := ReadmeState.valid (r"WSRT_Measures_20260108-160001.ztar") 6,
    ftpConnectOk := true, ftpEntries := [(r"WSRT_Measures_20260117-160001.ztar", 3)],
    ztarPreExists := false, downloadOk := true, readmePreExists := true,
    tarMembers := [r"ephemerides/VGP87/table.f0", r"geodetic/IGRF/table.f0.old"],
    extractFailsAfter := none, today := r"2026-10-12" }

def c10wArgs : Args := ⟨none, false, false, false⟩

def c10wEnv : Env :=
  { pathExists := true, pathIsDir := true, pathOwned := true,
    preReadme := ReadmeState.valid (r"WSRT_Measures_20260109-160001.ztar") 8,
    remote := RemoteAccess.listing [r"WSRT_Measures_20260118-160001.ztar"],
    obsDirExists := false, writableExec := true, lockNonEmpty := false,
    postReadme := ReadmeState.valid (r"WSRT_Measures_20260109-160001.ztar") 8,
    ftpConnectOk := true, ftpEntries := [],
    ztarPreExists := false, downloadOk := true, readmePreExists := true,
    tarMembers := [], extractFailsAfter := none, today := r"2026-10-12" }

/- ## Helper lemmas -/

lemma markerAfter_nil (b : Bool) : markerAfter b [] = b := rfl

lemma markerAfter_cons (b : Bool) (x : FsOp) (xs : List FsOp) :
    markerAfter b (x :: xs) = markerAfter (markerStep b x) xs := rfl

lemma markerAfter_append (b : Bool) (xs ys : List FsOp) :
    markerAfter b (xs ++ ys) = markerAfter (markerAfter b xs) ys := by
  simp [markerAfter, List.foldl_append]

lemma markerAfter_extracts (b : Bool) (l : List String) :
    markerAfter b (l.map FsOp.extract) = b := by
  induction l with
  | nil => rfl
  | cons x xs ih => simpa [markerAfter_cons, markerStep] using ih

lemma lockedPhase_cases (a : Args) (env : Env) (tr : List FsOp) :
    lockedPhase a env tr = installPhase a env tr ∨ (lockedPhase a env tr).trace = tr := by
  unfold lockedPhase
  repeat' split
  all_goals simp

lemma afterPreLock_cases (a : Args) (env : Env) (tr : List FsOp) :
    afterPreLock a env tr = installPhase a env tr ∨ (afterPreLock a env tr).trace = tr := by
  unfold afterPreLock
  split
  · simp
  · exact lockedPhase_cases a env tr

lemma preLockChecks_cases (a : Args) (env : Env) (tr : List FsOp) :
    preLockChecks a env tr = installPhase a env tr ∨ (preLockChecks a env tr).trace = tr
      ∨ (preLockChecks a env tr).trace = tr ++ [FsOp.utimeReadme] := by
  unfold preLockChecks
  repeat' split
  all_goals try simp
  rcases afterPreLock_cases a env tr with h | h
  · exact Or.inl h
  · exact Or.inr (Or.inl h)

lemma run_cases (a : Args) (env : Env) :
    (∃ tr, (tr = [] ∨ tr = [FsOp.makedirs]) ∧ measures_update a env = installPhase a env tr) ∨
    (measures_update a env).trace = [] ∨
    (measures_update a env).trace = [FsOp.makedirs] ∨
    (measures_update a env).trace = [FsOp.utimeReadme] ∨
    (measures_update a env).trace = [FsOp.makedirs, FsOp.utimeReadme] := by
  unfold measures_update
  split
  · simp
  split
  · simp
  split
  · simp
  cases hpe : env.pathExists
  case false =>
    simp only [hpe, Bool.false_eq_true, if_false]
    split
    · rcases afterPreLock_cases a env [FsOp.makedirs] with h | h
      · exact Or.inl ⟨[FsOp.makedirs], Or.inr rfl, h⟩
      · exact Or.inr (Or.inr (Or.inl h))
    · rcases preLockChecks_cases a env [FsOp.makedirs] with h | h | h
      · exact Or.inl ⟨[FsOp.makedirs], Or.inr rfl, h⟩
      · exact Or.inr (Or.inr (Or.inl h))
      · exact Or.inr (Or.inr (Or.inr (Or.inr (by simpa using h))))
  case true =>
    simp only [hpe, if_true]
    split
    · rcases afterPreLock_cases a env [] with h | h
      · exact Or.inl ⟨[], Or.inl rfl, h⟩
      · exact Or.inr (Or.inl h)
    · rcases preLockChecks_cases a env [] with h | h | h
      · exact Or.inl ⟨[], Or.inl rfl, h⟩
      · exact Or.inr (Or.inl h)
      · exact Or.inr (Or.inr (Or.inr (Or.inl (by simpa using h))))

lemma installPhase_removeReadme (a : Args) (env : Env) (tr : List FsOp)
    (h : FsOp.removeReadme ∈ (installPhase a env tr).trace) :
    FsOp.removeReadme ∈ tr ∨ env.downloadOk = true := by
  unfold installPhase at h
  repeat' split at h
  all_goals simp_all [List.mem_append, List.mem_map]

lemma installPhase_writeReadme (a : Args) (env : Env) (tr : List FsOp) (v d : String)
    (h : FsOp.writeReadme v d ∈ (installPhase a env tr).trace) :
    FsOp.writeReadme v d ∈ tr ∨
      (env.downloadOk = true ∧ env.extractFailsAfter = none) := by
  unfold installPhase at h
  repeat' split at h
  all_goals simp only [List.mem_append, List.mem_map] at h
  all_goals simp_all

lemma installPhase_midfail (a : Args) (env : Env) (tr : List FsOp) (k : Nat)
    (hk : env.extractFailsAfter = some k) (hd : env.downloadOk = true)
    (hz : ∀ t, FsOp.writeZtar t ∉ tr)
    (hm : markerAfter env.readmePreExists tr = env.readmePreExists)
    (hw : ∃ t, FsOp.writeZtar t ∈ (installPhase a env tr).trace) :
    markerAfter env.readmePreExists (installPhase a env tr).trace = false ∧
    (installPhase a env tr).result = UpResult.err UpErr.unexpected ∧
    (installPhase a env tr).lockAcquired = true ∧
    (installPhase a env tr).cleanLock = false := by
  obtain ⟨t, ht⟩ := hw
  unfold installPhase at ht ⊢
  repeat' split at ht
  all_goals first
    | exact absurd ht (hz t)
    | simp_all [markerAfter_append, markerAfter_extracts, markerAfter_cons,
        markerAfter_nil, markerStep, ← List.map_take]

lemma lockedPhase_badlock (a : Args) (env : Env) (tr : List FsOp)
    (hlock : env.lockNonEmpty = true) :
    lockedPhase a env tr = ⟨UpResult.err UpErr.badLock, tr, false, true⟩ := by
  unfold lockedPhase
  simp [hlock]

lemma afterPreLock_badlock (a : Args) (env : Env) (tr : List FsOp)
    (hlock : env.lockNonEmpty = true) :
    (afterPreLock a env tr).lockAcquired = false ∧
    ((afterPreLock a env tr).result = UpResult.err UpErr.badLock →
      (afterPreLock a env tr).trace = tr) := by
  unfold afterPreLock
  split
  · simp
  · rw [lockedPhase_badlock a env tr hlock]
    simp

lemma preLockChecks_badlock (a : Args) (env : Env) (tr : List FsOp)
    (hlock : env.lockNonEmpty = true) :
    (preLockChecks a env tr).lockAcquired = false ∧
    ((preLockChecks a env tr).result = UpResult.err UpErr.badLock →
      (preLockChecks a env tr).trace = tr) := by
  unfold preLockChecks
  repeat' split
  all_goals try simp
  exact afterPreLock_badlock a env tr hlock

lemma keepMember_iff (f u : Bool) (m : String) :
    keepMember f u m = true ↔
      (¬ (strHasSubstr (r"geodetic") m = true ∧ hasDotOld m.data = true) ∧
        (strHasSubstr (r"Observatories") m = true → f = true ∧ u = true)) := by
  unfold keepMember
  cases hg : strHasSubstr (r"geodetic") m <;>
    cases ho : hasDotOld m.data <;>
    cases hb : strHasSubstr (r"Observatories") m <;>
    cases f <;> cases u <;> simp

/- ## Claim theorems and witnesses -/

/-- Claim C1, code behavior at the failing input: force is False, the
pre-lock state is Valid and stale, and the fresh post-lock read classifies
the directory as Invalid. The claim and the spec say the run must abort
without mutating, leave the lock dirty, and raise BadReadme; the code
instead proceeds with a full install (line 276 compares the version
argument, not the re-read classification, against the strings invalid and
unknown, and never checks for error), returning normally with a clean lock
after downloading, extracting and writing a fresh marker. -/
theorem c1_code_behavior :
    (measures_update c1Args c1Env).result = UpResult.ok ∧
    (measures_update c1Args c1Env).result ≠ UpResult.err UpErr.badReadme ∧
    (measures_update c1Args c1Env).cleanLock = true ∧
    (measures_update c1Args c1Env).trace ≠ [] ∧
    FsOp.writeReadme (r"WSRT_Measures_20260110-160001.ztar") (r"2026-10-12")
      ∈ (measures_update c1Args c1Env).trace := by
  refine ⟨by decide, by decide, by decide, by decide, by decide⟩

/-- Claim C2: for every run of measures_update that proceeds to install,
the old marker geodetic/readme.txt is removed only in runs whose download
completed, the new marker is written only in runs whose extraction fully
completed, and a failure injected mid-extraction leaves the directory with
no marker file, the run raising the generic unexpected exception with the
lock sentinel left non-empty (acquired and not cleaned). -/
theorem c2_install_ordering (a : Args) (env : Env) :
    (FsOp.removeReadme ∈ (measures_update a env).trace → env.downloadOk = true) ∧
    (∀ v d, FsOp.writeReadme v d ∈ (measures_update a env).trace →
      env.downloadOk = true ∧ env.extractFailsAfter = none) ∧
    (∀ k, env.extractFailsAfter = some k → env.downloadOk = true →
      (∃ t, FsOp.writeZtar t ∈ (measures_update a env).trace) →
      markerAfter env.readmePreExists (measures_update a env).trace = false ∧
      (measures_update a env).result = UpResult.err UpErr.unexpected ∧
      (measures_update a env).lockAcquired = true ∧
      (measures_update a env).cleanLock = false) := by
  rcases run_cases a env with ⟨tr, htr, heq⟩ | h | h | h | h
  · rw [heq]
    refine ⟨?_, ?_, ?_⟩
    · intro hm
      rcases installPhase_removeReadme a env tr hm with h | h
      · rcases htr with rfl | rfl <;> simp at h
      · exact h
    · intro v d hm
      rcases installPhase_writeReadme a env tr v d hm with h | h
      · rcases htr with rfl | rfl <;> simp at h
      · exact h
    · intro k hk hd hw
      refine installPhase_midfail a env tr k hk hd ?_ ?_ hw
      · rcases htr with rfl | rfl <;> simp
      · rcases htr with rfl | rfl <;> simp [markerAfter_nil, markerAfter_cons, markerStep]
  all_goals refine ⟨?_, ?_, ?_⟩
  all_goals try intro v d hm
  all_goals try intro hm
  all_goals try (rw [h] at hm; simp at hm)

/-- Witness for claim C2 at a concrete run whose extraction fails
immediately: the marker is gone, the unexpected error propagates, and the
lock is left acquired and dirty. -/
theorem c2_install_ordering_witness :
    markerAfter c2wEnv.readmePreExists (measures_update c2wArgs c2wEnv).trace = false ∧
    (measures_update c2wArgs c2wEnv).result = UpResult.err UpErr.unexpected ∧
    (measures_update c2wArgs c2wEnv).lockAcquired = true ∧
    (measures_update c2wArgs c2wEnv).cleanLock = false :=
  (c2_install_ordering c2wArgs c2wEnv).2.2 0 rfl rfl
    ⟨r"WSRT_Measures_20260112-160001.ztar", by decide⟩

/-- Claim C3 counterexample: a directory whose marker is Valid with version
V and age half a day, called with force=False and version=None while the
remote latest equals V. The claim says the run refreshes the marker
modification time regardless of the marker age; the code returns at the
one-day age shortcut with an empty mutation trace, never touching the
marker. -/
theorem c3_counterexample :
    (measures_update c3Args c3Env).result = UpResult.ok ∧
    (measures_update c3Args c3Env).trace = [] ∧
    ¬ (measures_update c3Args c3Env).trace = [FsOp.utimeReadme] := by
  refine ⟨by decide, by decide, by decide⟩

/-- Claim C3 amended: for a directory whose marker is Valid with version V
(V not one of the reserved classification strings), calling with
force=False: when version=V is requested explicitly, or when version=None
with marker age of at least one day and the remote latest equal to V, the
run changes nothing at path except touching the marker file and returns
None; when version=None and the age is under one day the run returns None
with no mutation at all (the unconditional timestamp refresh stated by the
claim does not happen in that case). -/
theorem c3_amended (a : Args) (env : Env) (V : String) (age : ℚ)
    (hauto : a.auto_update_rules = false) (hforce : a.force = false)
    (hpath : env.pathExists = true)
    (hpre : env.preReadme = ReadmeState.valid V age)
    (hV1 : V ≠ r"invalid") (hV2 : V ≠ r"error") (hV3 : V ≠ r"unknown") :
    (a.version = some V →
      measures_update a env = ⟨UpResult.ok, [FsOp.utimeReadme], false, true⟩) ∧
    (a.version = none → 1 ≤ age → ∀ fs, env.remote = RemoteAccess.listing fs →
      (availFilter fs).getLast? = some V →
      measures_update a env = ⟨UpResult.ok, [FsOp.utimeReadme], false, true⟩) ∧
    (a.version = none → age < 1 →
      measures_update a env = ⟨UpResult.ok, [], false, true⟩) := by
  refine ⟨?_, ?_, ?_⟩
  · intro hv
    unfold measures_update preLockChecks resolveCheckVersion
    simp [hauto, hforce, hpath, hpre, hv, currentOf, ageRecentOf, hV1, hV2, hV3]
  · intro hv hage fs hrem hlast
    have hnl : ¬ (age < 1) := not_lt.mpr hage
    unfold measures_update preLockChecks resolveCheckVersion measures_available
    simp [hauto, hforce, hpath, hpre, hv, hrem, hlast, currentOf, ageRecentOf, hnl,
      hV1, hV2, hV3]
  · intro hv hage
    unfold measures_update preLockChecks
    simp [hauto, hforce, hpath, hpre, hv, currentOf, ageRecentOf, hage]

/-- Witness for the amended claim C3: requesting the installed version
explicitly touches the marker and returns None. -/
theorem c3_amended_witness :
    measures_update c3wArgs c3wEnv = ⟨UpResult.ok, [FsOp.utimeReadme], false, true⟩ :=
  (c3_amended c3wArgs c3wEnv (r"WSRT_Measures_20260104-160001.ztar") 7 rfl rfl rfl rfl
    (by decide) (by decide) (by decide)).1 rfl

/-- Claim C4 counterexample: Valid marker of age a quarter day, force=False,
version=None. The claim says the run changes nothing except refreshing the
record timestamp to now; the code performs no mutation at all: the trace is
empty and in particular contains no utime of the readme. -/
theorem c4_counterexample :
    (measures_update c4Args c4Env).result = UpResult.ok ∧
    (measures_update c4Args c4Env).trace = [] ∧
    ¬ (measures_update c4Args c4Env).trace = [FsOp.utimeReadme] := by
  refine ⟨by decide, by decide, by decide⟩

/-- Claim C4 amended: for every directory whose marker is Valid with age
under one day, calling measures_update with force=False and version=None is
a complete no-op: the outcome is the same for every state of the remote
server (it is never contacted), the mutation trace is empty (the record
timestamp is not refreshed), and None is returned. -/
theorem c4_amended (a : Args) (env : Env) (V : String) (age : ℚ)
    (hauto : a.auto_update_rules = false) (hforce : a.force = false)
    (hv : a.version = none) (hpath : env.pathExists = true)
    (hpre : env.preReadme = ReadmeState.valid V age) (hage : age < 1) :
    measures_update a env = ⟨UpResult.ok, [], false, true⟩ := by
  unfold measures_update preLockChecks
  simp [hauto, hforce, hpath, hpre, hv, ageRecentOf, hage]

/-- Witness for the amended claim C4 at a marker one third of a day old. -/
theorem c4_amended_witness :
    measures_update c4wArgs c4wEnv = ⟨UpResult.ok, [], false, true⟩ :=
  c4_amended c4wArgs c4wEnv (r"WSRT_Measures_20260106-160001.ztar") (mkRat 1 3)
    rfl rfl rfl rfl rfl (by decide)

/-- Claim C5: if the lock sentinel file at path is non-empty when
measures_update attempts to acquire the lock, the acquisition point raises
BadLock without acquiring the lock and without adding any mutation to the
trace, and the exception propagates out of measures_update: whenever the
whole run surfaces BadLock its mutation trace is empty, and no run under a
non-empty sentinel ever acquires the lock. get_data_lock is modelled from
the spec (its source is not in this snapshot). -/
theorem c5_badlock (a : Args) (env : Env)
    (hlock : env.lockNonEmpty = true) (hpath : env.pathExists = true) :
    (∀ tr, lockedPhase a env tr = ⟨UpResult.err UpErr.badLock, tr, false, true⟩) ∧
    (measures_update a env).lockAcquired = false ∧
    ((measures_update a env).result = UpResult.err UpErr.badLock →
      (measures_update a env).trace = []) := by
  refine ⟨fun tr => lockedPhase_badlock a env tr hlock, ?_⟩
  unfold measures_update
  split
  · simp
  split
  · simp
  split
  · simp
  simp only [hpath, eq_self_iff_true, if_true]
  split
  · exact afterPreLock_badlock a env [] hlock
  · exact preLockChecks_badlock a env [] hlock

/-- Witness for claim C5 at a concrete environment with a non-empty
sentinel. -/
theorem c5_badlock_witness :
    lockedPhase c5wArgs c5wEnv [] = ⟨UpResult.err UpErr.badLock, [], false, true⟩ ∧
    (measures_update c5wArgs c5wEnv).lockAcquired = false := by
  have h := c5_badlock c5wArgs c5wEnv rfl rfl
  exact ⟨h.1 [], h.2.1⟩

/-- Claim C6 counterexample: auto_update_rules is True and path does not
exist as a directory, but a specific version was also requested. The claim
says every such call raises AutoUpdatesNotAllowed; the code instead prints
that auto_update_rules requires version None and returns None before the
ownership check, raising nothing and creating nothing. -/
theorem c6_counterexample :
    (measures_update c6Args c6Env).result = UpResult.ok ∧
    (measures_update c6Args c6Env).result ≠ UpResult.err UpErr.autoUpdatesNotAllowed ∧
    (measures_update c6Args c6Env).trace = [] := by
  refine ⟨by decide, by decide, by decide⟩

/-- Claim C6 amended: with auto_update_rules=True and a path that is not a
directory or is not owned by the user, the call raises AutoUpdatesNotAllowed
and creates nothing when version=None and force=False; when a version is
requested or force is True it instead returns None immediately, also
creating nothing. -/
theorem c6_amended (a : Args) (env : Env)
    (hauto : a.auto_update_rules = true)
    (hbad : env.pathIsDir = false ∨ env.pathOwned = false) :
    (a.version = none → a.force = false →
      measures_update a env = ⟨UpResult.err UpErr.autoUpdatesNotAllowed, [], false, true⟩) ∧
    (a.version ≠ none ∨ a.force = true →
      (measures_update a env).result = UpResult.ok ∧ (measures_update a env).trace = []) := by
  constructor
  · intro hv hf
    unfold measures_update
    simp [hauto, hv, hf, hbad]
  · intro hvf
    unfold measures_update
    rcases hvf with hv | hf
    · simp [hauto, hv]
    · rcases hv : a.version with _ | v
      · simp [hauto, hf, hv]
      · simp [hauto, hf, hv]

/-- Witness for the amended claim C6 at a non-existent directory with
version=None and force=False. -/
theorem c6_amended_witness :
    measures_update c6wArgs c6wEnv
      = ⟨UpResult.err UpErr.autoUpdatesNotAllowed, [], false, true⟩ :=
  (c6_amended c6wArgs c6wEnv rfl (Or.inl rfl)).1 rfl rfl

/-- Claim C7 counterexample: a server listing that arrives in descending
order. measures_available returns it unchanged, so the returned sequence is
not in ascending lexicographic order and its last element is the oldest,
not the latest, version: the code never sorts the listing (unlike the
install-phase listing inside measures_update, which does). -/
theorem c7_counterexample :
    measures_available (RemoteAccess.listing c7List) = Except.ok c7List ∧
    c7List.getLast? = some (r"WSRT_Measures_20260101-160001.ztar") ∧
    ¬ sortStrings c7List = c7List := by
  refine ⟨rfl, rfl, by decide⟩

/-- Claim C7 amended: measures_available returns the remote listing
filtered of empty names and names ending in .dat, preserving the server
order (it does not sort, so the last element is the latest only when the
server lists versions in ascending order, which filtering preserves);
measures_update, resolving the version to check when version=None, takes
the last element of the measures_available result; a name-resolution
failure raises RemoteError and any other failure raises a generic
Exception. -/
theorem c7_amended :
    (∀ fs, measures_available (RemoteAccess.listing fs) = Except.ok (availFilter fs)) ∧
    (measures_available RemoteAccess.gaierror = Except.error AvailErr.remote) ∧
    (measures_available RemoteAccess.otherFailure = Except.error AvailErr.unexpected) ∧
    (∀ fs, List.Pairwise (fun x y : String => charListLe x.data y.data = true) fs →
      List.Pairwise (fun x y : String => charListLe x.data y.data = true) (availFilter fs)) ∧
    (∀ (a : Args) (env : Env) (fs : List String), a.version = none →
      env.remote = RemoteAccess.listing fs →
      resolveCheckVersion a env = Except.ok (availFilter fs).getLast?) := by
  refine ⟨fun fs => rfl, rfl, rfl, ?_, ?_⟩
  · intro fs h
    exact h.filter _
  · intro a env fs hv hrem
    unfold resolveCheckVersion measures_available
    simp [hv, hrem]

/-- Witness for the amended claim C7 at a concrete ascending listing. -/
theorem c7_amended_witness :
    resolveCheckVersion c7wArgs c7wEnv = Except.ok (availFilter c7wList).getLast? ∧
    List.Pairwise (fun x y : String => charListLe x.data y.data = true)
      (availFilter c7wList) := by
  have h := c7_amended
  exact ⟨h.2.2.2.2 c7wArgs c7wEnv c7wList rfl rfl, h.2.2.2.1 c7wList (by decide)⟩

/-- Claim C8: with force=False (and outside auto-update mode), the pre-lock
checks refuse bad prior state without touching path: an Invalid
classification raises NoReadme, an Error classification raises BadReadme,
and an Unknown classification makes the run return None after printing,
each with an empty mutation trace and without the lock; and with force=True
the outcome of the run does not depend on the pre-lock classification at
all (the refusals are bypassed). -/
theorem c8_prelock_refusals (a : Args) (env : Env)
    (hforce : a.force = false) (hauto : a.auto_update_rules = false)
    (hpath : env.pathExists = true) :
    (env.preReadme = ReadmeState.invalid →
      measures_update a env = ⟨UpResult.err UpErr.noReadme, [], false, true⟩) ∧
    (env.preReadme = ReadmeState.errorReading →
      measures_update a env = ⟨UpResult.err UpErr.badReadme, [], false, true⟩) ∧
    (env.preReadme = ReadmeState.unknown →
      measures_update a env = ⟨UpResult.ok, [], false, true⟩) ∧
    (∀ s s', measures_update { a with force := true } { env with preReadme := s }
        = measures_update { a with force := true } { env with preReadme := s' }) := by
  refine ⟨?_, ?_, ?_, ?_⟩
  · intro hpre
    unfold measures_update preLockChecks
    simp [hauto, hforce, hpath, hpre, currentOf, ageRecentOf]
  · intro hpre
    unfold measures_update preLockChecks
    simp [hauto, hforce, hpath, hpre, currentOf, ageRecentOf]
  · intro hpre
    unfold measures_update preLockChecks
    simp [hauto, hforce, hpath, hpre, currentOf, ageRecentOf]
  · intro s s'
    unfold measures_update
    simp only [hauto]
    rfl

/-- Witness for claim C8 at a concrete Invalid directory. -/
theorem c8_prelock_refusals_witness :
    measures_update c8wArgs c8wEnv = ⟨UpResult.err UpErr.noReadme, [], false, true⟩ :=
  (c8_prelock_refusals c8wArgs c8wEnv rfl rfl rfl).1 rfl

/-- Claim C9 counterexample: an install run with use_astron_obs_table=True
but force=False. The claim says the Observatories table is extracted
whenever its inclusion is explicitly requested via use_astron_obs_table;
the code includes it only when force is also True, so here the
Observatories member is excluded while the other member is extracted. -/
theorem c9_counterexample :
    c9Args.use_astron_obs_table = true ∧
    (measures_update c9Args c9Env).result = UpResult.ok ∧
    FsOp.extract (r"ephemerides/DE405/table.info") ∈ (measures_update c9Args c9Env).trace ∧
    FsOp.extract (r"geodetic/Observatories/table.f0")
      ∉ (measures_update c9Args c9Env).trace := by
  refine ⟨rfl, by decide, by decide, by decide⟩

/-- Claim C9 amended: in every completed install, a member is extracted
exactly when it is in the archive, its name does not match both the regex
geodetic and the regex .old, and, if its name matches Observatories, both
force and use_astron_obs_table are True (the source requires both flags to
include the Observatories table, not use_astron_obs_table alone). -/
theorem c9_amended (a : Args) (env : Env) (tr : List FsOp) (m t : String)
    (hftp : env.ftpConnectOk = true) (hdl : env.downloadOk = true)
    (hex : env.extractFailsAfter = none)
    (htgt : targetOf a env = some t) (hmem : t ∈ installFiles env)
    (htr : ∀ s, FsOp.extract s ∉ tr) :
    FsOp.extract m ∈ (installPhase a env tr).trace ↔
      (m ∈ env.tarMembers ∧
        ¬ (strHasSubstr (r"geodetic") m = true ∧ hasDotOld m.data = true) ∧
        (strHasSubstr (r"Observatories") m = true →
          a.force = true ∧ a.use_astron_obs_table = true)) := by
  unfold installPhase
  simp [hftp, hdl, hex, htgt, hmem, htr, List.mem_append, List.mem_filter, keepMember_iff]

/-- Witness for the amended claim C9 at a concrete install: a plain
ephemerides member is extracted, a geodetic backup member is not. -/
theorem c9_amended_witness :
    FsOp.extract (r"ephemerides/VGP87/table.f0")
      ∈ (installPhase c9wArgs c9wEnv []).trace ∧
    FsOp.extract (r"geodetic/IGRF/table.f0.old")
      ∉ (installPhase c9wArgs c9wEnv []).trace := by
  constructor
  · exact (c9_amended c9wArgs c9wEnv [] (r"ephemerides/VGP87/table.f0")
      (r"WSRT_Measures_20260117-160001.ztar") rfl rfl rfl rfl (by decide)
      (by simp)).mpr ⟨by decide, by decide, by decide⟩
  · intro hmem
    have h := (c9_amended c9wArgs c9wEnv [] (r"geodetic/IGRF/table.f0.old")
      (r"WSRT_Measures_20260117-160001.ztar") rfl rfl rfl rfl (by decide)
      (by simp)).mp hmem
    exact absurd ⟨by decide, by decide⟩ h.2.1

/-- Claim C10: with force=False, when every pre-lock check decides an
update is needed but path has no geodetic/Observatories directory, the run
returns None without acquiring the lock and with an empty mutation trace. -/
theorem c10_missing_obs (a : Args) (env : Env) (cv : Option String)
    (hforce : a.force = false) (hauto : a.auto_update_rules = false)
    (hpath : env.pathExists = true)
    (hage : ¬ (a.version = none ∧ ageRecentOf env.preReadme = true))
    (hc1 : currentOf env.preReadme ≠ some (r"invalid"))
    (hc2 : currentOf env.preReadme ≠ some (r"error"))
    (hc3 : currentOf env.preReadme ≠ some (r"unknown"))
    (hres : resolveCheckVersion a env = Except.ok cv)
    (hcv : ¬ (cv ≠ none ∧ cv = currentOf env.preReadme))
    (hobs : env.obsDirExists = false) :
    measures_update a env = ⟨UpResult.ok, [], false, true⟩ := by
  unfold measures_update preLockChecks
  simp [hauto, hforce, hpath, hage, hc1, hc2, hc3, hres, hcv, hobs]

/-- Witness for claim C10 at a concrete directory without the
Observatories table. -/
theorem c10_missing_obs_witness :
    measures_update c10wArgs c10wEnv = ⟨UpResult.ok, [], false, true⟩ :=
  c10_missing_obs c10wArgs c10wEnv (some (r"WSRT_Measures_20260118-160001.ztar"))
    rfl rfl rfl (by decide) (by decide) (by decide) (by decide) rfl (by decide) rfl

end Casadata
